import Mathlib

/-!
Verification of the chore-chomper points-and-state-transition core.

The definitions below are a shallow embedding of the route handlers in
`src/backend/src/routes/chore.routes.ts` (the chore state machine) and the
redemption routes (`POST /api/redemptions`, `PUT /api/redemptions/:id/review`,
`PUT /api/redemptions/:id/fulfill`).  Each handler is translated to a pure
function mirroring the TypeScript control flow: precondition checks in source
order, each early `res.status(...)` return becoming an `Except.error` with the
handler's error code, and the Prisma transaction becoming the returned updated
entities.  The single-family, single-ledger restriction of the embedding is
noted where it applies; `requireParent` / `requireChild` middleware is inlined
as the leading role check of the guarded handlers.
-/

namespace ChoreChomper

/-- User roles, from the Prisma `UserRole` enum. -/
inductive Role where
  | PARENT
  | CHILD
deriving DecidableEq, Repr

/-- Chore lifecycle statuses, from the Prisma `ChoreStatus` enum. -/
inductive ChoreStatus where
  | PENDING
  | COMPLETED
  | VERIFIED
  | REJECTED
deriving DecidableEq, Repr

/-- Redemption lifecycle statuses. -/
inductive RedStatus where
  | PENDING
  | APPROVED
  | REJECTED
  | FULFILLED
deriving DecidableEq, Repr

/-- Error codes actually emitted by the handlers (the `error.code` strings). -/
inductive ErrCode where
  | NOT_FOUND
  | FORBIDDEN
  | ALREADY_CLAIMED
  | INVALID_STATUS
  | CHORE_FINALIZED
  | CANNOT_DELETE_VERIFIED
  | INSUFFICIENT_POINTS
  | OUT_OF_STOCK
deriving DecidableEq, Repr

/-- Abstract error kinds of spec section 7. -/
inductive ErrKind where
  | NotFound
  | Forbidden
  | InvalidStateTransition
  | InsufficientPoints
  | OutOfStock
  | ChoreFinalized
deriving DecidableEq, Repr

/-- Mapping from the handlers' concrete error codes to the spec's abstract
error kinds, following the descriptions in spec section 7:
`ALREADY_CLAIMED` is the spec's "claiming an already-assigned chore" example of
`InvalidStateTransition`; `CANNOT_DELETE_VERIFIED` carries the message "Cannot
delete a verified chore. Points have already been awarded.", which is the
spec's `ChoreFinalized` rationale for a mutation on a VERIFIED chore. -/
def errKind : ErrCode → ErrKind
  | .NOT_FOUND => .NotFound
  | .FORBIDDEN => .Forbidden
  | .ALREADY_CLAIMED => .InvalidStateTransition
  | .INVALID_STATUS => .InvalidStateTransition
  | .CHORE_FINALIZED => .ChoreFinalized
  | .CANNOT_DELETE_VERIFIED => .ChoreFinalized
  | .INSUFFICIENT_POINTS => .InsufficientPoints
  | .OUT_OF_STOCK => .OutOfStock

/-- A user.  `pointsBalance` is the Prisma `Int` column; the handlers apply
unclamped increments/decrements to it, so it is modelled as `Int`. -/
structure User where
  id : Nat
  role : Role
  pointsBalance : Int
deriving DecidableEq, Repr

/-- A chore row, with the fields the chore handlers read or write.
`pointValue` is validated by `createChoreSchema`/`updateChoreSchema` as an
integer with `min(0)`, hence `Nat`.  Timestamps are abstract `Nat` instants. -/
structure Chore where
  id : Nat
  name : String
  assignedToId : Option Nat
  pointValue : Nat
  status : ChoreStatus
  isBonus : Bool
  completedAt : Option Nat
  photoUrl : Option String
  completionNotes : Option String
  verifiedAt : Option Nat
  verifiedById : Option Nat
  verificationNotes : Option String
  claimedAt : Option Nat
deriving DecidableEq, Repr

/-- A reward row.  `quantityAvailable` is a nullable `Int` (null meaning
unlimited stock). -/
structure Reward where
  id : Nat
  pointCost : Nat
  quantityAvailable : Option Int
  isActive : Bool
deriving DecidableEq, Repr

/-- A redemption row.  `pointsSpent` is the snapshot of the reward's
`pointCost` taken at request time. -/
structure Redemption where
  id : Nat
  childId : Nat
  rewardId : Nat
  pointsSpent : Nat
  status : RedStatus
  reviewedAt : Option Nat
  reviewedById : Option Nat
  fulfilledAt : Option Nat
  notes : Option String
deriving DecidableEq, Repr

/-- Body of `POST /api/chores/:id/verify`, validated by `verifyChoreSchema`
(`approved : boolean`, `feedback` optional, `pointsPenalty` optional
integer with `min(0)`). -/
structure VerifyInput where
  approved : Bool
  feedback : Option String
  pointsPenalty : Option Nat
deriving DecidableEq, Repr

/-- Body of `POST /api/chores/:id/complete` (`completeChoreSchema`). -/
structure CompleteInput where
  photoUrl : Option String
  notes : Option String
deriving DecidableEq, Repr

/-- Body of `PUT /api/chores/:id` (`updateChoreSchema`).  A field wrapped in
`Option` is absent when `none`; the doubly-wrapped fields are the
`.nullable().optional()` ones, where `some none` is an explicit null. -/
structure UpdateInput where
  name : Option String
  pointValue : Option Nat
  assignedToId : Option (Option Nat)
  isBonus : Option Bool
deriving DecidableEq, Repr

/-- POST /api/chores/:id/claim.  This route is registered with no role
middleware (only the router-level `authenticate`), so any family member may
call it; there is no PARENT/CHILD check in the handler.  Checks in source
order: already-assigned, then status. -/
def claimChore (actor : User) (chore : Chore) (now : Nat) : Except ErrCode Chore :=
  if chore.assignedToId ≠ none then
    .error .ALREADY_CLAIMED
  else if chore.status ≠ ChoreStatus.PENDING then
    .error .INVALID_STATUS
  else
    .ok { chore with assignedToId := some actor.id, claimedAt := some now }

/-- PUT /api/chores/:id (parents only via `requireParent`).  The handler
rejects chores whose status is VERIFIED or REJECTED with `CHORE_FINALIZED`
("Cannot update a finalized chore"); otherwise it applies the given field
updates, clearing `claimedAt` when `assignedToId` is explicitly set to null.
The in-family validation of a new assignee/category is outside this
single-family embedding. -/
def updateChore (actor : User) (chore : Chore) (input : UpdateInput) : Except ErrCode Chore :=
  if actor.role ≠ Role.PARENT then
    .error .FORBIDDEN
  else if chore.status = ChoreStatus.VERIFIED ∨ chore.status = ChoreStatus.REJECTED then
    .error .CHORE_FINALIZED
  else
    .ok { chore with
          name := input.name.getD chore.name,
          pointValue := input.pointValue.getD chore.pointValue,
          assignedToId := input.assignedToId.getD chore.assignedToId,
          isBonus := input.isBonus.getD chore.isBonus,
          claimedAt := if input.assignedToId = some none then none else chore.claimedAt }

/-- POST /api/chores/:id/complete.  No role middleware; the handler requires
the actor to be the chore's current assignee (`FORBIDDEN` otherwise) and the
status to be PENDING or REJECTED (`INVALID_STATUS` otherwise); it then sets
COMPLETED, stamps `completedAt`, keeps the old photo when none is supplied
(`data.photoUrl || chore.photoUrl`), overwrites `completionNotes`, and clears
`verifiedAt`/`verifiedById`. -/
def completeChore (actor : User) (chore : Chore) (input : CompleteInput) (now : Nat) :
    Except ErrCode Chore :=
  if chore.assignedToId ≠ some actor.id then
    .error .FORBIDDEN
  else if chore.status ≠ ChoreStatus.PENDING ∧ chore.status ≠ ChoreStatus.REJECTED then
    .error .INVALID_STATUS
  else
    .ok { chore with
          status := ChoreStatus.COMPLETED,
          completedAt := some now,
          photoUrl := input.photoUrl.orElse (fun _ => chore.photoUrl),
          completionNotes := input.notes,
          verifiedAt := none,
          verifiedById := none }

/-- POST /api/chores/:id/add-photo.  Assignee-only; status must be COMPLETED
or REJECTED; updates `photoUrl` only. -/
def addPhoto (actor : User) (chore : Chore) (url : String) : Except ErrCode Chore :=
  if chore.assignedToId ≠ some actor.id then
    .error .FORBIDDEN
  else if chore.status ≠ ChoreStatus.COMPLETED ∧ chore.status ≠ ChoreStatus.REJECTED then
    .error .INVALID_STATUS
  else
    .ok { chore with photoUrl := some url }

/-- POST /api/chores/:id/verify (parents only via `requireParent`).  Mirrors
the handler: status must be COMPLETED; `pointsPenalty = data.pointsPenalty || 0`;
the penalty-versus-balance check runs only when `!approved && penalty > 0`;
the approve branch sets VERIFIED and increments the assignee's balance by
`pointValue` when `pointValue > 0`; the reject branch sets REJECTED, clears
`completedAt`, and decrements the balance by the penalty when it is positive.
`assignee` is the chore's joined `assignedTo` user. -/
def verifyChore (actor : User) (chore : Chore) (assignee : User) (input : VerifyInput)
    (now : Nat) : Except ErrCode (Chore × User) :=
  if actor.role ≠ Role.PARENT then
    .error .FORBIDDEN
  else if chore.status ≠ ChoreStatus.COMPLETED then
    .error .INVALID_STATUS
  else
    let pointsPenalty := input.pointsPenalty.getD 0
    if input.approved = false ∧ pointsPenalty > 0 ∧
        (pointsPenalty : Int) > assignee.pointsBalance then
      .error .INSUFFICIENT_POINTS
    else if input.approved then
      .ok ({ chore with
             status := ChoreStatus.VERIFIED,
             verifiedAt := some now,
             verifiedById := some actor.id,
             verificationNotes := input.feedback },
           if chore.pointValue > 0 then
             { assignee with pointsBalance := assignee.pointsBalance + chore.pointValue }
           else assignee)
    else
      .ok ({ chore with
             status := ChoreStatus.REJECTED,
             verifiedAt := some now,
             verifiedById := some actor.id,
             verificationNotes := input.feedback,
             completedAt := none },
           if pointsPenalty > 0 then
             { assignee with pointsBalance := assignee.pointsBalance - pointsPenalty }
           else assignee)

/-- POST /api/chores/:id/reset (parents only).  Only REJECTED chores may be
reset; the handler wipes completion and verification fields and returns the
chore to PENDING. -/
def resetChore (actor : User) (chore : Chore) : Except ErrCode Chore :=
  if actor.role ≠ Role.PARENT then
    .error .FORBIDDEN
  else if chore.status ≠ ChoreStatus.REJECTED then
    .error .INVALID_STATUS
  else
    .ok { chore with
          status := ChoreStatus.PENDING,
          completedAt := none,
          photoUrl := none,
          completionNotes := none,
          verifiedAt := none,
          verifiedById := none,
          verificationNotes := none }

/-- DELETE /api/chores/:id (parents only).  VERIFIED chores cannot be deleted
(`CANNOT_DELETE_VERIFIED`); otherwise the row is hard-deleted. -/
def deleteChore (actor : User) (chore : Chore) : Except ErrCode Unit :=
  if actor.role ≠ Role.PARENT then
    .error .FORBIDDEN
  else if chore.status = ChoreStatus.VERIFIED then
    .error .CANNOT_DELETE_VERIFIED
  else
    .ok ()

/-- POST /api/redemptions (children only via `requireChild`).  Mirrors the
handler: the reward is fetched with `isActive: true` in the filter, so an
inactive reward is `NOT_FOUND`; a non-null `quantityAvailable ≤ 0` is
`OUT_OF_STOCK`; a balance below `pointCost` is `INSUFFICIENT_POINTS`;
otherwise one transaction debits `pointCost` from the child, decrements the
inventory when it is limited, and creates a PENDING redemption whose
`pointsSpent` snapshots the current `pointCost`. -/
def requestRedemption (actor : User) (reward : Reward) (newId : Nat) (notes : Option String) :
    Except ErrCode (User × Reward × Redemption) :=
  if actor.role ≠ Role.CHILD then
    .error .FORBIDDEN
  else if reward.isActive = false then
    .error .NOT_FOUND
  else if (match reward.quantityAvailable with
           | some q => decide (q ≤ 0)
           | none => false) then
    .error .OUT_OF_STOCK
  else if actor.pointsBalance < reward.pointCost then
    .error .INSUFFICIENT_POINTS
  else
    .ok ({ actor with pointsBalance := actor.pointsBalance - reward.pointCost },
         (match reward.quantityAvailable with
          | some q => { reward with quantityAvailable := some (q - 1) }
          | none => reward),
         { id := newId,
           childId := actor.id,
           rewardId := reward.id,
           pointsSpent := reward.pointCost,
           status := RedStatus.PENDING,
           reviewedAt := none,
           reviewedById := none,
           fulfilledAt := none,
           notes := notes })

/-- Review decision of `reviewRedemptionSchema` (`APPROVED | REJECTED`). -/
inductive ReviewDecision where
  | APPROVED
  | REJECTED
deriving DecidableEq, Repr

/-- PUT /api/redemptions/:id/review (parents only).  The handler's `findFirst`
filters on `status: "PENDING"`, so a redemption in any other status is
`NOT_FOUND`.  Rejection, in one transaction, refunds the stored `pointsSpent`
to the child, increments the reward's `quantityAvailable` by 1 when it is
currently non-null, and stamps the redemption REJECTED; approval only stamps
APPROVED.  `reward` is the redemption's joined reward row and `child` the
redemption's child. -/
def reviewRedemption (actor : User) (redemption : Redemption) (reward : Reward) (child : User)
    (decision : ReviewDecision) (notes : Option String) (now : Nat) :
    Except ErrCode (Redemption × Reward × User) :=
  if actor.role ≠ Role.PARENT then
    .error .FORBIDDEN
  else if redemption.status ≠ RedStatus.PENDING then
    .error .NOT_FOUND
  else
    match decision with
    | .REJECTED =>
        .ok ({ redemption with
               status := RedStatus.REJECTED,
               reviewedAt := some now,
               reviewedById := some actor.id,
               notes := notes },
             (match reward.quantityAvailable with
              | some q => { reward with quantityAvailable := some (q + 1) }
              | none => reward),
             { child with pointsBalance := child.pointsBalance + redemption.pointsSpent })
    | .APPROVED =>
        .ok ({ redemption with
               status := RedStatus.APPROVED,
               reviewedAt := some now,
               reviewedById := some actor.id,
               notes := notes },
             reward, child)

/-- PUT /api/redemptions/:id/fulfill (parents only).  The `findFirst` filters
on `status: "APPROVED"`, so any other status is `NOT_FOUND`; on success the
handler only stamps FULFILLED and `fulfilledAt` — it touches no user balance
and no reward row. -/
def fulfillRedemption (actor : User) (redemption : Redemption) (now : Nat) :
    Except ErrCode Redemption :=
  if actor.role ≠ Role.PARENT then
    .error .FORBIDDEN
  else if redemption.status ≠ RedStatus.APPROVED then
    .error .NOT_FOUND
  else
    .ok { redemption with status := RedStatus.FULFILLED, fulfilledAt := some now }

/-! ### Trace-level state

The handlers above act on the rows a single request touches.  For the
sequence-of-operations properties (balance conservation, request/reject
symmetry, frame conditions) we thread them through an explicit state: one
child user's ledger, the chores assigned to that child, the family's rewards,
and the child's redemptions.  Operations addressed to rows of other users are
out of this frame and are modelled as `NOT_FOUND`, matching the family/child
scoping of the handlers' `findFirst` filters. -/

/-- State of one child's ledger and the rows the four core operations touch. -/
structure SysState where
  child : User
  chores : List Chore
  rewards : List Reward
  redemptions : List Redemption
deriving DecidableEq, Repr

/-- Write back an updated chore row (update-by-id). -/
def setChore (cs : List Chore) (c : Chore) : List Chore :=
  cs.map (fun x => if x.id == c.id then c else x)

/-- Write back an updated reward row (update-by-id). -/
def setReward (rs : List Reward) (r : Reward) : List Reward :=
  rs.map (fun x => if x.id == r.id then r else x)

/-- Write back an updated redemption row (update-by-id). -/
def setRedemption (rs : List Redemption) (r : Redemption) : List Redemption :=
  rs.map (fun x => if x.id == r.id then r else x)

/-- The core ledger-touching operations of spec section 8's balance-conservation
property, plus redemption approval and fulfilment (which have no ledger
effect). -/
inductive Op where
  | verifyApprove (parent : User) (choreId : Nat) (feedback : Option String) (now : Nat)
  | verifyReject (parent : User) (choreId : Nat) (penalty : Option Nat)
      (feedback : Option String) (now : Nat)
  | redeemRequest (rewardId : Nat) (newId : Nat) (notes : Option String)
  | redeemReview (parent : User) (redemptionId : Nat) (decision : ReviewDecision)
      (notes : Option String) (now : Nat)
  | redeemFulfill (parent : User) (redemptionId : Nat) (now : Nat)
deriving DecidableEq, Repr

/-- Apply one operation to the state by dispatching to the corresponding
handler.  On success it also reports the signed ledger delta the operation
applied to the child's balance, computed from the source quantities: the
chore's `pointValue` for an approval, minus the penalty for a rejection with
penalty, minus the reward's `pointCost` for a request, plus the stored
`pointsSpent` for a redemption rejection, and zero otherwise. -/
def applyOp (s : SysState) : Op → Except ErrCode (SysState × Int)
  | .verifyApprove parent choreId feedback now =>
    match s.chores.find? (fun c => c.id == choreId) with
    | none => .error .NOT_FOUND
    | some chore =>
      if chore.assignedToId = some s.child.id then
        match verifyChore parent chore s.child ⟨true, feedback, none⟩ now with
        | .error e => .error e
        | .ok (c2, u2) =>
          .ok ({ s with child := u2, chores := setChore s.chores c2 },
               (chore.pointValue : Int))
      else .error .NOT_FOUND
  | .verifyReject parent choreId penalty feedback now =>
    match s.chores.find? (fun c => c.id == choreId) with
    | none => .error .NOT_FOUND
    | some chore =>
      if chore.assignedToId = some s.child.id then
        match verifyChore parent chore s.child ⟨false, feedback, penalty⟩ now with
        | .error e => .error e
        | .ok (c2, u2) =>
          .ok ({ s with child := u2, chores := setChore s.chores c2 },
               -((penalty.getD 0 : Int)))
      else .error .NOT_FOUND
  | .redeemRequest rewardId newId notes =>
    match s.rewards.find? (fun r => r.id == rewardId) with
    | none => .error .NOT_FOUND
    | some reward =>
      match requestRedemption s.child reward newId notes with
      | .error e => .error e
      | .ok (u2, rw2, rd) =>
        .ok ({ s with
               child := u2,
               rewards := setReward s.rewards rw2,
               redemptions := s.redemptions ++ [rd] },
             -((reward.pointCost : Int)))
  | .redeemReview parent redemptionId decision notes now =>
    match s.redemptions.find? (fun r => r.id == redemptionId) with
    | none => .error .NOT_FOUND
    | some rd =>
      if rd.childId = s.child.id then
        match s.rewards.find? (fun r => r.id == rd.rewardId) with
        | none => .error .NOT_FOUND
        | some reward =>
          match reviewRedemption parent rd reward s.child decision notes now with
          | .error e => .error e
          | .ok (rd2, rw2, u2) =>
            .ok ({ s with
                   child := u2,
                   rewards := setReward s.rewards rw2,
                   redemptions := setRedemption s.redemptions rd2 },
                 match decision with
                 | .REJECTED => (rd.pointsSpent : Int)
                 | .APPROVED => 0)
      else .error .NOT_FOUND
  | .redeemFulfill parent redemptionId now =>
    match s.redemptions.find? (fun r => r.id == redemptionId) with
    | none => .error .NOT_FOUND
    | some rd =>
      match fulfillRedemption parent rd now with
      | .error e => .error e
      | .ok rd2 =>
        .ok ({ s with redemptions := setRedemption s.redemptions rd2 }, 0)

/-- Run a sequence of operations, skipping the ones that fail (a failed
request changes nothing), and collect the ledger deltas the successful ones
applied. -/
def runOps (s : SysState) : List Op → SysState × List Int
  | [] => (s, [])
  | op :: rest =>
    match applyOp s op with
    | .error _ => runOps s rest
    | .ok (s2, d) =>
      let out := runOps s2 rest
      (out.1, d :: out.2)

/-! ### Concrete sample rows, used in closed instances of the theorems -/

/-- A parent user. -/
def parent1 : User := ⟨1, Role.PARENT, 0⟩

/-- A child user with a balance of 5 points. -/
def child2 : User := ⟨2, Role.CHILD, 5⟩

/-- A COMPLETED chore worth 20 points, assigned to `child2`. -/
def choreCompleted : Chore :=
  ⟨1, "dishes", some 2, 20, ChoreStatus.COMPLETED, false, some 3, none, none, none, none,
   none, none⟩

/-- An already-VERIFIED chore worth 20 points, assigned to `child2`. -/
def choreVerified : Chore :=
  ⟨1, "dishes", some 2, 20, ChoreStatus.VERIFIED, false, some 3, none, none, some 4, some 1,
   none, none⟩

/-- A REJECTED chore, assigned to `child2`. -/
def choreRejected : Chore :=
  ⟨1, "dishes", some 2, 10, ChoreStatus.REJECTED, false, none, none, none, some 4, some 1,
   none, none⟩

/-- An unassigned PENDING bonus chore. -/
def choreAvailable : Chore :=
  ⟨3, "rake leaves", none, 5, ChoreStatus.PENDING, true, none, none, none, none, none,
   none, none⟩

/-- An active reward costing 50 points with one unit in stock. -/
def rewardLimited : Reward := ⟨7, 50, some 1, true⟩

/-- An active reward costing 4 points with unlimited stock. -/
def rewardUnlimited : Reward := ⟨8, 4, none, true⟩

/-- A PENDING redemption of `rewardLimited` by `child2`. -/
def redemptionPending : Redemption := ⟨11, 2, 7, 50, RedStatus.PENDING, none, none, none, none⟩

/-- An APPROVED redemption of `rewardLimited` by `child2`. -/
def redemptionApproved : Redemption :=
  ⟨11, 2, 7, 50, RedStatus.APPROVED, some 6, some 1, none, none⟩

/-- A state holding the verified chore, for frame instances. -/
def sysVerified : SysState := ⟨child2, [choreVerified], [], []⟩

/-! ### Helper lemmas -/

/-- Running an empty batch leaves the state untouched. -/
theorem runOps_nil (s : SysState) : runOps s [] = (s, []) := rfl

/-- A failing operation is skipped: the state and the delta trace continue
unchanged. -/
theorem runOps_cons_error (s : SysState) (op : Op) (rest : List Op) (e : ErrCode)
    (h : applyOp s op = .error e) : runOps s (op :: rest) = runOps s rest := by
  simp [runOps, h]

/-- Verification of a chore that is not COMPLETED fails with
`INVALID_STATUS` (for a parent actor, who passes the role gate). -/
theorem verifyChore_not_completed (a : User) (c : Chore) (u : User) (i : VerifyInput)
    (now : Nat) (hrole : a.role = Role.PARENT) (h : c.status ≠ ChoreStatus.COMPLETED) :
    verifyChore a c u i now = .error .INVALID_STATUS := by
  simp [verifyChore, hrole, h]

/-- Verification of a chore that is not COMPLETED fails for every actor:
non-parents are stopped by the role gate, parents by the status gate. -/
theorem verifyChore_not_completed_err (a : User) (c : Chore) (u : User) (i : VerifyInput)
    (now : Nat) (h : c.status ≠ ChoreStatus.COMPLETED) :
    ∃ e, verifyChore a c u i now = .error e := by
  by_cases hrole : a.role = Role.PARENT
  · exact ⟨_, verifyChore_not_completed a c u i now hrole h⟩
  · exact ⟨.FORBIDDEN, by simp [verifyChore, hrole]⟩

/-- A verify-approve on a COMPLETED chore succeeds with the stated effects. -/
theorem verifyChore_approve_ok (p u : User) (c : Chore) (fb : Option String)
    (pp : Option Nat) (now : Nat) (hrole : p.role = Role.PARENT)
    (hst : c.status = ChoreStatus.COMPLETED) :
    verifyChore p c u ⟨true, fb, pp⟩ now =
      .ok ({ c with
             status := ChoreStatus.VERIFIED,
             verifiedAt := some now,
             verifiedById := some p.id,
             verificationNotes := fb },
           if c.pointValue > 0 then
             { u with pointsBalance := u.pointsBalance + c.pointValue }
           else u) := by
  simp [verifyChore, hrole, hst]

/-- A verify-reject whose penalty exceeds the assignee's (non-negative)
balance fails with `INSUFFICIENT_POINTS`. -/
theorem verifyChore_reject_insufficient (p u : User) (c : Chore) (fb : Option String)
    (pp : Option Nat) (now : Nat) (hrole : p.role = Role.PARENT)
    (hst : c.status = ChoreStatus.COMPLETED) (h0 : 0 ≤ u.pointsBalance)
    (hgt : (pp.getD 0 : Int) > u.pointsBalance) :
    verifyChore p c u ⟨false, fb, pp⟩ now = .error .INSUFFICIENT_POINTS := by
  have hpos : 0 < pp.getD 0 := by omega
  simp [verifyChore, hrole, hst, hpos, hgt]

/-- A verify-reject whose penalty is within the assignee's balance succeeds
with the stated effects. -/
theorem verifyChore_reject_ok (p u : User) (c : Chore) (fb : Option String)
    (pp : Option Nat) (now : Nat) (hrole : p.role = Role.PARENT)
    (hst : c.status = ChoreStatus.COMPLETED)
    (hle : (pp.getD 0 : Int) ≤ u.pointsBalance) :
    verifyChore p c u ⟨false, fb, pp⟩ now =
      .ok ({ c with
             status := ChoreStatus.REJECTED,
             verifiedAt := some now,
             verifiedById := some p.id,
             verificationNotes := fb,
             completedAt := none },
           if pp.getD 0 > 0 then
             { u with pointsBalance := u.pointsBalance - pp.getD 0 }
           else u) := by
  have hng : ¬ ((pp.getD 0 : Int) > u.pointsBalance) := not_lt.mpr hle
  simp [verifyChore, hrole, hst, hng]

/-- A redemption rejection on a PENDING redemption succeeds, refunding the
stored `pointsSpent` and restoring a limited reward's inventory by one. -/
theorem reviewRedemption_reject_ok (p : User) (rd : Redemption) (rw : Reward) (child : User)
    (notes : Option String) (now : Nat) (hrole : p.role = Role.PARENT)
    (hst : rd.status = RedStatus.PENDING) :
    reviewRedemption p rd rw child .REJECTED notes now =
      .ok ({ rd with
             status := RedStatus.REJECTED,
             reviewedAt := some now,
             reviewedById := some p.id,
             notes := notes },
           (match rw.quantityAvailable with
            | some q => { rw with quantityAvailable := some (q + 1) }
            | none => rw),
           { child with pointsBalance := child.pointsBalance + rd.pointsSpent }) := by
  simp [reviewRedemption, hrole, hst]

/-- Inversion of a successful redemption request: the returned rows are the
debited child, the (conditionally) decremented reward, and the fresh PENDING
redemption snapshotting the reward's current cost. -/
theorem requestRedemption_ok_inv (child : User) (rw : Reward) (newId : Nat)
    (notes : Option String) (u1 : User) (rw1 : Reward) (rd : Redemption)
    (h : requestRedemption child rw newId notes = .ok (u1, rw1, rd)) :
    u1 = { child with pointsBalance := child.pointsBalance - rw.pointCost } ∧
    rw1 = (match rw.quantityAvailable with
           | some q => { rw with quantityAvailable := some (q - 1) }
           | none => rw) ∧
    rd = ⟨newId, child.id, rw.id, rw.pointCost, RedStatus.PENDING, none, none, none, notes⟩ := by
  unfold requestRedemption at h
  split at h
  · exact absurd h (by simp)
  · split at h
    · exact absurd h (by simp)
    · split at h
      · exact absurd h (by simp)
      · split at h
        · exact absurd h (by simp)
        · rw [Except.ok.injEq] at h
          exact ⟨(congrArg Prod.fst h).symm, (congrArg (fun x => x.snd.fst) h).symm,
            (congrArg (fun x => x.snd.snd) h).symm⟩

/-- A redemption request succeeds, with the stated transaction, when the
reward is active and in stock and the child can afford it. -/
theorem requestRedemption_ok_eq (child : User) (rw : Reward) (newId : Nat)
    (notes : Option String) (hrole : child.role = Role.CHILD) (hact : rw.isActive = true)
    (hstock : rw.quantityAvailable = none ∨ ∃ q, rw.quantityAvailable = some q ∧ 0 < q)
    (hbal : (rw.pointCost : Int) ≤ child.pointsBalance) :
    requestRedemption child rw newId notes =
      .ok ({ child with pointsBalance := child.pointsBalance - rw.pointCost },
           (match rw.quantityAvailable with
            | some q => { rw with quantityAvailable := some (q - 1) }
            | none => rw),
           ⟨newId, child.id, rw.id, rw.pointCost, RedStatus.PENDING, none, none, none,
            notes⟩) := by
  have hnb : ¬ (child.pointsBalance < (rw.pointCost : Int)) := not_lt.mpr hbal
  have hns : (match rw.quantityAvailable with
              | some q => decide (q ≤ 0)
              | none => false) = false := by
    rcases hstock with h | ⟨q, hq, hpos⟩
    · rw [h]
    · rw [hq]
      simp
      omega
  simp [requestRedemption, hrole, hact, hns, hnb]

/-- A successful redemption request implies each of its preconditions held. -/
theorem requestRedemption_ok_conditions (child : User) (rw : Reward) (newId : Nat)
    (notes : Option String) (out : User × Reward × Redemption)
    (h : requestRedemption child rw newId notes = .ok out) :
    child.role = Role.CHILD ∧ rw.isActive = true ∧
    (rw.quantityAvailable = none ∨ ∃ q, rw.quantityAvailable = some q ∧ 0 < q) ∧
    (rw.pointCost : Int) ≤ child.pointsBalance := by
  unfold requestRedemption at h
  split at h
  · exact absurd h (by simp)
  · split at h
    · exact absurd h (by simp)
    · split at h
      · exact absurd h (by simp)
      · split at h
        · exact absurd h (by simp)
        · rename_i h1 h2 h3 h4
          refine ⟨by simpa using h1, by simpa using h2, ?_, by simpa using h4⟩
          rcases hq : rw.quantityAvailable with _ | q
          · exact Or.inl rfl
          · refine Or.inr ⟨q, rfl, ?_⟩
            rw [hq] at h3
            simp at h3
            omega

/-- Balance effect of any successful verify call: an approval credits the
chore's pointValue; a rejection debits the penalty, which the guard has
checked against the assignee's balance. -/
theorem verifyChore_ok_balance (a : User) (c : Chore) (u : User) (i : VerifyInput)
    (now : Nat) (c2 : Chore) (u2 : User) (h : verifyChore a c u i now = .ok (c2, u2)) :
    (i.approved = true → u2.pointsBalance = u.pointsBalance + c.pointValue) ∧
    (i.approved = false →
      u2.pointsBalance = u.pointsBalance - (i.pointsPenalty.getD 0) ∧
      (0 ≤ u.pointsBalance → 0 ≤ u2.pointsBalance)) := by
  unfold verifyChore at h
  simp only [] at h
  split at h
  · exact absurd h (by simp)
  · split at h
    · exact absurd h (by simp)
    · split at h
      · exact absurd h (by simp)
      · rename_i hguard
        split at h
        · rename_i happr
          rw [Except.ok.injEq, Prod.mk.injEq] at h
          obtain ⟨hc2, hu2⟩ := h
          constructor
          · intro _
            rw [← hu2]
            by_cases hpv : 0 < c.pointValue
            · simp [hpv]
            · have h0 : c.pointValue = 0 := by omega
              simp [hpv, h0]
          · intro hfalse
            rw [happr] at hfalse
            exact absurd hfalse (by simp)
        · rename_i hnappr
          have happr : i.approved = false := by
            revert hnappr
            cases i.approved <;> simp
          have hguard2 : 0 < i.pointsPenalty.getD 0 →
              ((i.pointsPenalty.getD 0 : Int)) ≤ u.pointsBalance := by
            intro hpp
            by_contra hlt
            push_neg at hlt
            exact hguard ⟨happr, hpp, hlt⟩
          rw [Except.ok.injEq, Prod.mk.injEq] at h
          obtain ⟨hc2, hu2⟩ := h
          constructor
          · intro htrue
            rw [happr] at htrue
            exact absurd htrue (by simp)
          · intro _
            rw [← hu2]
            by_cases hpp : 0 < i.pointsPenalty.getD 0
            · have hle := hguard2 hpp
              constructor
              · simp [hpp]
              · intro h0
                simp only [if_pos hpp]
                omega
            · have h0 : i.pointsPenalty.getD 0 = 0 := by omega
              constructor
              · simp [hpp, h0]
              · intro hb
                simpa [hpp] using hb

/-- Balance effect of any successful redemption review: a rejection refunds
the stored pointsSpent; an approval leaves the child untouched. -/
theorem reviewRedemption_ok_inv (p : User) (rd : Redemption) (rw : Reward) (child : User)
    (decision : ReviewDecision) (notes : Option String) (now : Nat)
    (rd2 : Redemption) (rw2 : Reward) (u2 : User)
    (h : reviewRedemption p rd rw child decision notes now = .ok (rd2, rw2, u2)) :
    (decision = .REJECTED ∧
      u2 = { child with pointsBalance := child.pointsBalance + rd.pointsSpent }) ∨
    (decision = .APPROVED ∧ u2 = child) := by
  unfold reviewRedemption at h
  split at h
  · exact absurd h (by simp)
  · split at h
    · exact absurd h (by simp)
    · cases decision
      · refine Or.inr ⟨rfl, ?_⟩
        simp only [Except.ok.injEq, Prod.mk.injEq] at h
        exact h.2.2.symm
      · refine Or.inl ⟨rfl, ?_⟩
        simp only [Except.ok.injEq, Prod.mk.injEq] at h
        exact h.2.2.symm

/-- One successful operation changes the child's balance by exactly the
reported ledger delta, and preserves non-negativity of the balance (each
debiting operation is guarded by a balance pre-check). -/
theorem applyOp_balance (s : SysState) (op : Op) (s2 : SysState) (d : Int)
    (h : applyOp s op = .ok (s2, d)) :
    s2.child.pointsBalance = s.child.pointsBalance + d ∧
    (0 ≤ s.child.pointsBalance → 0 ≤ s2.child.pointsBalance) := by
  cases op with
  | verifyApprove parent cid fb now =>
    simp only [applyOp] at h
    split at h
    · exact absurd h (by simp)
    · rename_i chore hfind
      split at h
      · rename_i hassigned
        split at h
        · exact absurd h (by simp)
        · rename_i c2 u2 heq
          rw [Except.ok.injEq, Prod.mk.injEq] at h
          obtain ⟨h1, h2⟩ := h
          subst h1
          subst h2
          have hb : u2.pointsBalance = s.child.pointsBalance + (chore.pointValue : Int) :=
            (verifyChore_ok_balance parent chore s.child ⟨true, fb, none⟩ now c2 u2 heq).1 rfl
          constructor
          · exact hb
          · intro h0
            show 0 ≤ u2.pointsBalance
            omega
      · exact absurd h (by simp)
  | verifyReject parent cid penalty fb now =>
    simp only [applyOp] at h
    split at h
    · exact absurd h (by simp)
    · rename_i chore hfind
      split at h
      · rename_i hassigned
        split at h
        · exact absurd h (by simp)
        · rename_i c2 u2 heq
          rw [Except.ok.injEq, Prod.mk.injEq] at h
          obtain ⟨h1, h2⟩ := h
          subst h1
          subst h2
          have hb := (verifyChore_ok_balance parent chore s.child ⟨false, fb, penalty⟩ now c2
            u2 heq).2 rfl
          have hb1 : u2.pointsBalance = s.child.pointsBalance - ((penalty.getD 0 : Int)) :=
            hb.1
          have hb2 : 0 ≤ s.child.pointsBalance → 0 ≤ u2.pointsBalance := hb.2
          constructor
          · show u2.pointsBalance = s.child.pointsBalance + -((penalty.getD 0 : Int))
            omega
          · intro h0
            show 0 ≤ u2.pointsBalance
            exact hb2 h0
      · exact absurd h (by simp)
  | redeemRequest rwId newId notes =>
    simp only [applyOp] at h
    split at h
    · exact absurd h (by simp)
    · rename_i reward hfind
      split at h
      · exact absurd h (by simp)
      · rename_i u2 rw2 rd heq
        rw [Except.ok.injEq, Prod.mk.injEq] at h
        obtain ⟨h1, h2⟩ := h
        subst h1
        subst h2
        obtain ⟨hu2, hrw2, hrd⟩ :=
          requestRedemption_ok_inv s.child reward newId notes u2 rw2 rd heq
        have hcost :=
          (requestRedemption_ok_conditions s.child reward newId notes (u2, rw2, rd) heq).2.2.2
        have hu2b : u2.pointsBalance = s.child.pointsBalance - (reward.pointCost : Int) := by
          rw [hu2]
        constructor
        · show u2.pointsBalance = s.child.pointsBalance + -((reward.pointCost : Int))
          omega
        · intro h0
          show 0 ≤ u2.pointsBalance
          omega
  | redeemReview parent rid decision notes now =>
    simp only [applyOp] at h
    split at h
    · exact absurd h (by simp)
    · rename_i rd hfind
      split at h
      · rename_i hchild
        split at h
        · exact absurd h (by simp)
        · rename_i reward hfind2
          split at h
          · exact absurd h (by simp)
          · rename_i rd2 rw2 u2 heq
            rw [Except.ok.injEq, Prod.mk.injEq] at h
            obtain ⟨h1, h2⟩ := h
            subst h1
            rcases reviewRedemption_ok_inv parent rd reward s.child decision notes now rd2 rw2
                u2 heq with ⟨hdec, hu2⟩ | ⟨hdec, hu2⟩
            · subst hdec
              simp only [] at h2
              subst h2
              have hu2b : u2.pointsBalance = s.child.pointsBalance + (rd.pointsSpent : Int) := by
                rw [hu2]
              constructor
              · exact hu2b
              · intro h0
                show 0 ≤ u2.pointsBalance
                omega
            · subst hdec
              simp only [] at h2
              subst h2
              have hu2b : u2.pointsBalance = s.child.pointsBalance := by rw [hu2]
              constructor
              · show u2.pointsBalance = s.child.pointsBalance + 0
                omega
              · intro h0
                show 0 ≤ u2.pointsBalance
                omega
      · exact absurd h (by simp)
  | redeemFulfill parent rid now =>
    simp only [applyOp] at h
    split at h
    · exact absurd h (by simp)
    · rename_i rd hfind
      split at h
      · exact absurd h (by simp)
      · rename_i rd2 heq
        rw [Except.ok.injEq, Prod.mk.injEq] at h
        obtain ⟨h1, h2⟩ := h
        subst h1
        subst h2
        constructor
        · show s.child.pointsBalance = s.child.pointsBalance + 0
          omega
        · intro h0
          exact h0

/-- Running any batch of operations: the final balance is the initial
balance plus the sum of the applied deltas, and a non-negative balance stays
non-negative throughout. -/
theorem runOps_balance (ops : List Op) (s : SysState) (h0 : 0 ≤ s.child.pointsBalance) :
    (runOps s ops).1.child.pointsBalance = s.child.pointsBalance + (runOps s ops).2.sum ∧
    0 ≤ (runOps s ops).1.child.pointsBalance := by
  induction ops generalizing s with
  | nil =>
    constructor
    · show s.child.pointsBalance = s.child.pointsBalance + ([] : List Int).sum
      simp
    · exact h0
  | cons op rest ih =>
    cases happ : applyOp s op with
    | error e =>
      rw [runOps_cons_error s op rest e happ]
      exact ih s h0
    | ok out =>
      obtain ⟨s2, d⟩ := out
      have hb := applyOp_balance s op s2 d happ
      have hrun : runOps s (op :: rest) = ((runOps s2 rest).1, d :: (runOps s2 rest).2) := by
        simp [runOps, happ]
      rw [hrun]
      obtain ⟨ih1, ih2⟩ := ih s2 (hb.2 h0)
      refine ⟨?_, ih2⟩
      show (runOps s2 rest).1.child.pointsBalance =
        s.child.pointsBalance + (d :: (runOps s2 rest).2).sum
      rw [ih1, hb.1, List.sum_cons]
      ring

/-! ### Claims -/

/-- C1: for every chore whose status is COMPLETED, a parent's verify with
approved=true sets status to VERIFIED, sets verifiedAt and verifiedById, and
atomically credits the chore's pointValue to the assignee's balance (the
credit applied only if pointValue > 0); for every chore whose status is not
COMPLETED (in particular an already-VERIFIED chore), the same call fails with
InvalidStateTransition and the assignee's balance — indeed the whole state —
is unchanged, so a chore's pointValue is credited exactly once over its
lifetime. -/
theorem C1_verify_approve_credits_exactly_once :
    (∀ (p u : User) (c : Chore) (fb : Option String) (pp : Option Nat) (now : Nat),
      p.role = Role.PARENT → c.status = ChoreStatus.COMPLETED →
      ∃ c2 u2,
        verifyChore p c u ⟨true, fb, pp⟩ now = .ok (c2, u2) ∧
        c2.status = ChoreStatus.VERIFIED ∧
        c2.verifiedAt = some now ∧
        c2.verifiedById = some p.id ∧
        u2.pointsBalance = u.pointsBalance + c.pointValue ∧
        (¬ 0 < c.pointValue → u2 = u)) ∧
    (∀ (p u : User) (c : Chore) (fb : Option String) (pp : Option Nat) (now : Nat),
      p.role = Role.PARENT → c.status ≠ ChoreStatus.COMPLETED →
      verifyChore p c u ⟨true, fb, pp⟩ now = .error .INVALID_STATUS ∧
      errKind .INVALID_STATUS = .InvalidStateTransition) ∧
    (∀ (s : SysState) (p : User) (cid : Nat) (fb : Option String) (now : Nat) (c : Chore)
      (rest : List Op),
      s.chores.find? (fun x => x.id == cid) = some c →
      c.status ≠ ChoreStatus.COMPLETED →
      runOps s (Op.verifyApprove p cid fb now :: rest) = runOps s rest) := by
  refine ⟨?_, ?_, ?_⟩
  · intro p u c fb pp now hrole hst
    refine ⟨_, _, verifyChore_approve_ok p u c fb pp now hrole hst, rfl, rfl, rfl, ?_, ?_⟩
    · by_cases hpv : 0 < c.pointValue
      · simp [hpv]
      · have h0 : c.pointValue = 0 := by omega
        simp [hpv, h0]
    · intro hpv
      simp [hpv]
  · intro p u c fb pp now hrole hst
    exact ⟨verifyChore_not_completed p c u _ now hrole hst, rfl⟩
  · intro s p cid fb now c rest hfind hst
    obtain ⟨e, he⟩ : ∃ e, applyOp s (Op.verifyApprove p cid fb now) = .error e := by
      simp only [applyOp, hfind]
      by_cases hassigned : c.assignedToId = some s.child.id
      · obtain ⟨e, he⟩ := verifyChore_not_completed_err p c s.child ⟨true, fb, none⟩ now hst
        rw [if_pos hassigned, he]
        exact ⟨e, rfl⟩
      · rw [if_neg hassigned]
        exact ⟨.NOT_FOUND, rfl⟩
    exact runOps_cons_error s _ rest e he

/-- Witness: C1 instantiated at `choreCompleted` (approve part), at
`choreVerified` (second-verify part), and at the one-chore state `sysVerified`
(frame part). -/
theorem C1_verify_approve_credits_exactly_once_witness :
    (∃ c2 u2,
      verifyChore parent1 choreCompleted child2 ⟨true, none, none⟩ 9 = .ok (c2, u2) ∧
      c2.status = ChoreStatus.VERIFIED ∧
      c2.verifiedAt = some 9 ∧
      c2.verifiedById = some parent1.id ∧
      u2.pointsBalance = child2.pointsBalance + choreCompleted.pointValue ∧
      (¬ 0 < choreCompleted.pointValue → u2 = child2)) ∧
    (verifyChore parent1 choreVerified child2 ⟨true, none, none⟩ 9 = .error .INVALID_STATUS ∧
      errKind .INVALID_STATUS = .InvalidStateTransition) ∧
    runOps sysVerified (Op.verifyApprove parent1 1 none 9 :: []) = runOps sysVerified [] :=
  ⟨C1_verify_approve_credits_exactly_once.1 parent1 child2 choreCompleted none none 9 rfl rfl,
   C1_verify_approve_credits_exactly_once.2.1 parent1 child2 choreVerified none none 9 rfl
     (by simp [choreVerified]),
   C1_verify_approve_credits_exactly_once.2.2 sysVerified parent1 1 none 9 choreVerified []
     rfl (by simp [choreVerified])⟩

/-- C4: for every chore whose status is COMPLETED, a parent's verify with
approved=false and a pointsPenalty greater than the assignee's current
balance fails with InsufficientPoints and leaves the chore, the balance, and
all other state unchanged; when the penalty is at most the balance, the call
sets status to REJECTED, sets verifiedAt and verifiedById, clears
completedAt, and atomically debits pointsPenalty from the assignee when it is
greater than 0. -/
theorem C4_reject_penalty_guard :
    (∀ (p u : User) (c : Chore) (fb : Option String) (pp : Option Nat) (now : Nat),
      p.role = Role.PARENT → c.status = ChoreStatus.COMPLETED →
      0 ≤ u.pointsBalance →
      (pp.getD 0 : Int) > u.pointsBalance →
      verifyChore p c u ⟨false, fb, pp⟩ now = .error .INSUFFICIENT_POINTS ∧
      errKind .INSUFFICIENT_POINTS = .InsufficientPoints) ∧
    (∀ (s : SysState) (p : User) (cid : Nat) (pp : Option Nat) (fb : Option String)
       (now : Nat) (c : Chore) (rest : List Op),
      s.chores.find? (fun x => x.id == cid) = some c →
      p.role = Role.PARENT → c.status = ChoreStatus.COMPLETED →
      0 ≤ s.child.pointsBalance →
      (pp.getD 0 : Int) > s.child.pointsBalance →
      runOps s (Op.verifyReject p cid pp fb now :: rest) = runOps s rest) ∧
    (∀ (p u : User) (c : Chore) (fb : Option String) (pp : Option Nat) (now : Nat),
      p.role = Role.PARENT → c.status = ChoreStatus.COMPLETED →
      (pp.getD 0 : Int) ≤ u.pointsBalance →
      ∃ c2 u2,
        verifyChore p c u ⟨false, fb, pp⟩ now = .ok (c2, u2) ∧
        c2.status = ChoreStatus.REJECTED ∧
        c2.verifiedAt = some now ∧
        c2.verifiedById = some p.id ∧
        c2.completedAt = none ∧
        u2.pointsBalance = u.pointsBalance - (pp.getD 0 : Int) ∧
        (pp.getD 0 = 0 → u2 = u)) := by
  refine ⟨?_, ?_, ?_⟩
  · intro p u c fb pp now hrole hst h0 hgt
    exact ⟨verifyChore_reject_insufficient p u c fb pp now hrole hst h0 hgt, rfl⟩
  · intro s p cid pp fb now c rest hfind hrole hst h0 hgt
    obtain ⟨e, he⟩ : ∃ e, applyOp s (Op.verifyReject p cid pp fb now) = .error e := by
      simp only [applyOp, hfind]
      by_cases hassigned : c.assignedToId = some s.child.id
      · rw [if_pos hassigned,
          verifyChore_reject_insufficient p s.child c fb pp now hrole hst h0 hgt]
        exact ⟨.INSUFFICIENT_POINTS, rfl⟩
      · rw [if_neg hassigned]
        exact ⟨.NOT_FOUND, rfl⟩
    exact runOps_cons_error s _ rest e he
  · intro p u c fb pp now hrole hst hle
    refine ⟨_, _, verifyChore_reject_ok p u c fb pp now hrole hst hle, rfl, rfl, rfl, rfl,
      ?_, ?_⟩
    · by_cases hpos : pp.getD 0 > 0
      · simp [hpos]
      · have h0 : pp.getD 0 = 0 := by omega
        simp [hpos, h0]
    · intro h0
      simp [h0]

/-- Witness: C4 instantiated with a penalty of 8 against `child2`'s balance
of 5 (failure parts, including the state with `choreCompleted`), and with a
penalty of 4 (success part). -/
theorem C4_reject_penalty_guard_witness :
    (verifyChore parent1 choreCompleted child2 ⟨false, none, some 8⟩ 9 =
        .error .INSUFFICIENT_POINTS ∧
      errKind .INSUFFICIENT_POINTS = .InsufficientPoints) ∧
    runOps ⟨child2, [choreCompleted], [], []⟩
        (Op.verifyReject parent1 1 (some 8) none 9 :: []) =
      runOps ⟨child2, [choreCompleted], [], []⟩ [] ∧
    (∃ c2 u2,
      verifyChore parent1 choreCompleted child2 ⟨false, none, some 4⟩ 9 = .ok (c2, u2) ∧
      c2.status = ChoreStatus.REJECTED ∧
      c2.verifiedAt = some 9 ∧
      c2.verifiedById = some parent1.id ∧
      c2.completedAt = none ∧
      u2.pointsBalance = child2.pointsBalance - ((some 4 : Option Nat).getD 0 : Int) ∧
      ((some 4 : Option Nat).getD 0 = 0 → u2 = child2)) :=
  ⟨C4_reject_penalty_guard.1 parent1 child2 choreCompleted none (some 8) 9 rfl rfl
      (by norm_num [child2]) (by norm_num [child2]),
   C4_reject_penalty_guard.2.1 ⟨child2, [choreCompleted], [], []⟩ parent1 1 (some 8) none 9
      choreCompleted [] rfl rfl rfl (by norm_num [child2]) (by norm_num [child2]),
   C4_reject_penalty_guard.2.2 parent1 child2 choreCompleted none (some 4) 9 rfl rfl
      (by norm_num [child2])⟩

/-- C10: when a parent verifies a COMPLETED chore with approved=true, any
pointsPenalty supplied in the request is ignored: the result is the same for
every pointsPenalty value, the assignee's balance changes only by
+pointValue, and the penalty-versus-balance precondition is not checked on
the approve path (the call succeeds even when the penalty exceeds the
balance). -/
theorem C10_penalty_ignored_on_approve :
    (∀ (p u : User) (c : Chore) (fb : Option String) (pp pq : Option Nat) (now : Nat),
      verifyChore p c u ⟨true, fb, pp⟩ now = verifyChore p c u ⟨true, fb, pq⟩ now) ∧
    (∀ (p u : User) (c : Chore) (fb : Option String) (pp : Option Nat) (now : Nat),
      p.role = Role.PARENT → c.status = ChoreStatus.COMPLETED →
      ∃ c2 u2,
        verifyChore p c u ⟨true, fb, pp⟩ now = .ok (c2, u2) ∧
        u2.pointsBalance = u.pointsBalance + c.pointValue) := by
  refine ⟨?_, ?_⟩
  · intro p u c fb pp pq now
    simp [verifyChore]
  · intro p u c fb pp now hrole hst
    refine ⟨_, _, verifyChore_approve_ok p u c fb pp now hrole hst, ?_⟩
    by_cases hpv : 0 < c.pointValue
    · simp [hpv]
    · have h0 : c.pointValue = 0 := by omega
      simp [hpv, h0]

/-- Witness: C10 instantiated with a penalty of 999 against `child2`'s
balance of 5 — the approve call still succeeds and still credits 20. -/
theorem C10_penalty_ignored_on_approve_witness :
    verifyChore parent1 choreCompleted child2 ⟨true, none, some 999⟩ 9 =
      verifyChore parent1 choreCompleted child2 ⟨true, none, none⟩ 9 ∧
    (∃ c2 u2,
      verifyChore parent1 choreCompleted child2 ⟨true, none, some 999⟩ 9 = .ok (c2, u2) ∧
      u2.pointsBalance = child2.pointsBalance + choreCompleted.pointValue) :=
  ⟨C10_penalty_ignored_on_approve.1 parent1 child2 choreCompleted none (some 999) none 9,
   C10_penalty_ignored_on_approve.2 parent1 child2 choreCompleted none (some 999) 9 rfl rfl⟩

/-- C6 counterexample: the claim route has no role middleware, so a PARENT
actor claiming an unassigned PENDING chore does not fail with Forbidden — the
claim succeeds and assigns the chore to the parent. -/
theorem C6_parent_claim_succeeds :
    claimChore parent1 choreAvailable 7 =
      .ok { choreAvailable with assignedToId := some parent1.id, claimedAt := some 7 } := by
  simp [claimChore, choreAvailable]

/-- C6 (amended): claim is not role-restricted — the route is registered
without `requireChild`, so any authenticated family member may claim.  For
every actor, claim succeeds exactly when the chore's assignedToId is null and
its status is PENDING, setting assignedToId to the actor and claimedAt to
now; it fails with AlreadyClaimed (an InvalidStateTransition kind) when the
chore is already assigned, and with InvalidStatus when it is unassigned but
not PENDING, leaving the chore unchanged. -/
theorem C6_claim_amended :
    (∀ (actor : User) (c : Chore) (now : Nat),
      c.assignedToId = none → c.status = ChoreStatus.PENDING →
      claimChore actor c now =
        .ok { c with assignedToId := some actor.id, claimedAt := some now }) ∧
    (∀ (actor : User) (c : Chore) (now : Nat),
      c.assignedToId ≠ none →
      claimChore actor c now = .error .ALREADY_CLAIMED ∧
      errKind .ALREADY_CLAIMED = .InvalidStateTransition) ∧
    (∀ (actor : User) (c : Chore) (now : Nat),
      c.assignedToId = none → c.status ≠ ChoreStatus.PENDING →
      claimChore actor c now = .error .INVALID_STATUS ∧
      errKind .INVALID_STATUS = .InvalidStateTransition) := by
  refine ⟨?_, ?_, ?_⟩
  · intro actor c now hun hst
    simp [claimChore, hun, hst]
  · intro actor c now hassigned
    exact ⟨by simp [claimChore, hassigned], rfl⟩
  · intro actor c now hun hst
    exact ⟨by simp [claimChore, hun, hst], rfl⟩

/-- Witness: C6 (amended) instantiated at `child2` claiming the unassigned
PENDING `choreAvailable`, at the already-assigned `choreCompleted`, and at an
unassigned VERIFIED chore. -/
theorem C6_claim_amended_witness :
    claimChore child2 choreAvailable 7 =
      .ok { choreAvailable with assignedToId := some child2.id, claimedAt := some 7 } ∧
    (claimChore child2 choreCompleted 7 = .error .ALREADY_CLAIMED ∧
      errKind .ALREADY_CLAIMED = .InvalidStateTransition) ∧
    (claimChore child2 { choreAvailable with status := ChoreStatus.VERIFIED } 7 =
        .error .INVALID_STATUS ∧
      errKind .INVALID_STATUS = .InvalidStateTransition) :=
  ⟨C6_claim_amended.1 child2 choreAvailable 7 rfl rfl,
   C6_claim_amended.2.1 child2 choreCompleted 7 (by simp [choreCompleted]),
   C6_claim_amended.2.2 child2 { choreAvailable with status := ChoreStatus.VERIFIED } 7 rfl
     (by simp [choreAvailable])⟩

/-- C7 counterexample: a parent's update of a chore whose status is REJECTED
does not succeed — the handler also treats REJECTED as finalized and fails
with CHORE_FINALIZED ("Cannot update a finalized chore"). -/
theorem C7_update_rejected_fails :
    updateChore parent1 choreRejected ⟨some "sweep", none, none, none⟩ =
      .error .CHORE_FINALIZED := by
  simp [updateChore, parent1, choreRejected]

/-- C7 (amended): a parent's update of a chore's fields is permitted exactly
from the statuses PENDING and COMPLETED; a chore whose status is VERIFIED or
REJECTED fails with ChoreFinalized — the precondition on status is that it is
neither VERIFIED nor REJECTED, not merely "not VERIFIED". -/
theorem C7_update_amended :
    (∀ (p : User) (c : Chore) (inp : UpdateInput),
      p.role = Role.PARENT →
      c.status ≠ ChoreStatus.VERIFIED → c.status ≠ ChoreStatus.REJECTED →
      ∃ c2, updateChore p c inp = .ok c2) ∧
    (∀ (p : User) (c : Chore) (inp : UpdateInput),
      p.role = Role.PARENT →
      (c.status = ChoreStatus.VERIFIED ∨ c.status = ChoreStatus.REJECTED) →
      updateChore p c inp = .error .CHORE_FINALIZED ∧
      errKind .CHORE_FINALIZED = .ChoreFinalized) := by
  refine ⟨?_, ?_⟩
  · intro p c inp hrole hv hr
    refine ⟨{ c with
              name := inp.name.getD c.name,
              pointValue := inp.pointValue.getD c.pointValue,
              assignedToId := inp.assignedToId.getD c.assignedToId,
              isBonus := inp.isBonus.getD c.isBonus,
              claimedAt := if inp.assignedToId = some none then none else c.claimedAt }, ?_⟩
    simp [updateChore, hrole, hv, hr]
  · intro p c inp hrole hfin
    exact ⟨by simp [updateChore, hrole, hfin], rfl⟩

/-- Witness: C7 (amended) instantiated at the COMPLETED chore (update
succeeds) and at the REJECTED chore (update fails with CHORE_FINALIZED). -/
theorem C7_update_amended_witness :
    (∃ c2, updateChore parent1 choreCompleted ⟨some "sweep", some 25, none, none⟩ = .ok c2) ∧
    (updateChore parent1 choreRejected ⟨none, none, none, none⟩ = .error .CHORE_FINALIZED ∧
      errKind .CHORE_FINALIZED = .ChoreFinalized) :=
  ⟨C7_update_amended.1 parent1 choreCompleted ⟨some "sweep", some 25, none, none⟩ rfl
     (by simp [choreCompleted]) (by simp [choreCompleted]),
   C7_update_amended.2 parent1 choreRejected ⟨none, none, none, none⟩ rfl
     (Or.inr rfl)⟩

/-- C9 counterexample: fulfilling a redemption whose status is PENDING (not
APPROVED) fails, but with NotFound — the handler's `findFirst` filters on
`status: "APPROVED"` and reports "Approved redemption not found" — not with
InvalidStateTransition as the claim states. -/
theorem C9_fulfill_pending_is_not_found :
    fulfillRedemption parent1 redemptionPending 9 = .error .NOT_FOUND ∧
    errKind .NOT_FOUND ≠ .InvalidStateTransition := by
  exact ⟨by simp [fulfillRedemption, parent1, redemptionPending], by simp [errKind]⟩

/-- C9 (amended): fulfilling a redemption succeeds exactly when its status is
APPROVED, setting status to FULFILLED and fulfilledAt to now with no effect
on any balance or inventory; fulfilling a redemption in any other status
fails with NotFound (the handler looks the redemption up filtered to
APPROVED) and changes nothing. -/
theorem C9_fulfill_amended :
    (∀ (p : User) (rd : Redemption) (now : Nat),
      p.role = Role.PARENT → rd.status = RedStatus.APPROVED →
      fulfillRedemption p rd now =
        .ok { rd with status := RedStatus.FULFILLED, fulfilledAt := some now }) ∧
    (∀ (s s2 : SysState) (p : User) (rid now : Nat) (d : Int),
      applyOp s (Op.redeemFulfill p rid now) = .ok (s2, d) →
      s2.child = s.child ∧ s2.rewards = s.rewards ∧ s2.chores = s.chores ∧ d = 0) ∧
    (∀ (p : User) (rd : Redemption) (now : Nat),
      p.role = Role.PARENT → rd.status ≠ RedStatus.APPROVED →
      fulfillRedemption p rd now = .error .NOT_FOUND ∧
      errKind .NOT_FOUND = .NotFound) := by
  refine ⟨?_, ?_, ?_⟩
  · intro p rd now hrole hst
    simp [fulfillRedemption, hrole, hst]
  · intro s s2 p rid now d h
    simp only [applyOp] at h
    split at h
    · exact absurd h (by simp)
    · split at h
      · exact absurd h (by simp)
      · rw [Except.ok.injEq, Prod.ext_iff] at h
        obtain ⟨h1, h2⟩ := h
        subst h1
        subst h2
        exact ⟨rfl, rfl, rfl, rfl⟩
  · intro p rd now hrole hst
    exact ⟨by simp [fulfillRedemption, hrole, hst], rfl⟩

/-- Witness: C9 (amended) instantiated at the APPROVED redemption
`redemptionApproved`, at a one-redemption state for the frame part, and at
the PENDING redemption for the failure part. -/
theorem C9_fulfill_amended_witness :
    fulfillRedemption parent1 redemptionApproved 9 =
      .ok { redemptionApproved with status := RedStatus.FULFILLED, fulfilledAt := some 9 } ∧
    ((⟨child2, [], [rewardLimited], [{ redemptionApproved with
        status := RedStatus.FULFILLED, fulfilledAt := some 9 }]⟩ : SysState).child =
        (⟨child2, [], [rewardLimited], [redemptionApproved]⟩ : SysState).child ∧
      (⟨child2, [], [rewardLimited], [{ redemptionApproved with
        status := RedStatus.FULFILLED, fulfilledAt := some 9 }]⟩ : SysState).rewards =
        (⟨child2, [], [rewardLimited], [redemptionApproved]⟩ : SysState).rewards ∧
      (⟨child2, [], [rewardLimited], [{ redemptionApproved with
        status := RedStatus.FULFILLED, fulfilledAt := some 9 }]⟩ : SysState).chores =
        (⟨child2, [], [rewardLimited], [redemptionApproved]⟩ : SysState).chores ∧
      (0 : Int) = 0) ∧
    (fulfillRedemption parent1 redemptionPending 9 = .error .NOT_FOUND ∧
      errKind .NOT_FOUND = .NotFound) :=
  ⟨C9_fulfill_amended.1 parent1 redemptionApproved 9 rfl rfl,
   C9_fulfill_amended.2.1 ⟨child2, [], [rewardLimited], [redemptionApproved]⟩ _ parent1 11 9 0
     (by simp [applyOp, fulfillRedemption, redemptionApproved, parent1, setRedemption]),
   C9_fulfill_amended.2.2 parent1 redemptionPending 9 rfl (by simp [redemptionPending])⟩

/-- C2: for every redemption that is requested and then rejected by a parent
(with no other operation touching that child or reward in between — here the
rejection is applied directly to the post-request rows), the child's points
balance and the reward's quantityAvailable are restored exactly to their
pre-request values: the reject refunds the stored pointsSpent (which equals
the cost snapshotted at request time, not the reward's current pointCost) and
increments quantityAvailable by 1 if and only if the request had decremented
it (the limited case; in the unlimited case neither side touches the
inventory). -/
theorem C2_request_reject_restores :
    ∀ (child : User) (rw : Reward) (newId : Nat) (notes notes2 : Option String)
      (p : User) (now : Nat) (u1 : User) (rw1 : Reward) (rd : Redemption),
      requestRedemption child rw newId notes = .ok (u1, rw1, rd) →
      p.role = Role.PARENT →
      rd.pointsSpent = rw.pointCost ∧
      ∃ rd2 rw2 u2,
        reviewRedemption p rd rw1 u1 .REJECTED notes2 now = .ok (rd2, rw2, u2) ∧
        u2.pointsBalance = child.pointsBalance ∧
        rw2.quantityAvailable = rw.quantityAvailable ∧
        rd2.status = RedStatus.REJECTED ∧
        ((∃ q, rw.quantityAvailable = some q ∧ rw1.quantityAvailable = some (q - 1) ∧
            rw2.quantityAvailable = some q) ∨
          (rw.quantityAvailable = none ∧ rw1.quantityAvailable = none ∧ rw2 = rw1)) := by
  intro child rw newId notes notes2 p now u1 rw1 rd hreq hrole
  obtain ⟨hu1, hrw1, hrd⟩ := requestRedemption_ok_inv child rw newId notes u1 rw1 rd hreq
  have hst : rd.status = RedStatus.PENDING := by rw [hrd]
  refine ⟨by rw [hrd], ?_⟩
  refine ⟨_, _, _, reviewRedemption_reject_ok p rd rw1 u1 notes2 now hrole hst, ?_, ?_, rfl, ?_⟩
  · rw [hu1, hrd]
    simp
  · rw [hrw1]
    rcases hq : rw.quantityAvailable with _ | q
    · simp [hq]
    · simp [hq]
  · rw [hrw1]
    rcases hq : rw.quantityAvailable with _ | q
    · exact Or.inr ⟨rfl, by simp [hq], by simp [hq]⟩
    · exact Or.inl ⟨q, rfl, by simp [hq], by simp [hq]⟩

/-- Witness: C2 instantiated at `child2` (with its balance raised to 60)
requesting the limited reward `rewardLimited` (cost 50, one unit in stock)
and the parent rejecting the resulting redemption. -/
theorem C2_request_reject_restores_witness :
    (⟨12, 2, 7, 50, RedStatus.PENDING, none, none, none, none⟩ : Redemption).pointsSpent =
      rewardLimited.pointCost ∧
    ∃ rd2 rw2 u2,
      reviewRedemption parent1 ⟨12, 2, 7, 50, RedStatus.PENDING, none, none, none, none⟩
          ⟨7, 50, some 0, true⟩ ⟨2, Role.CHILD, 10⟩ .REJECTED none 9 = .ok (rd2, rw2, u2) ∧
      u2.pointsBalance = (⟨2, Role.CHILD, 60⟩ : User).pointsBalance ∧
      rw2.quantityAvailable = rewardLimited.quantityAvailable ∧
      rd2.status = RedStatus.REJECTED ∧
      ((∃ q, rewardLimited.quantityAvailable = some q ∧
          (⟨7, 50, some 0, true⟩ : Reward).quantityAvailable = some (q - 1) ∧
          rw2.quantityAvailable = some q) ∨
        (rewardLimited.quantityAvailable = none ∧
          (⟨7, 50, some 0, true⟩ : Reward).quantityAvailable = none ∧
          rw2 = ⟨7, 50, some 0, true⟩)) :=
  C2_request_reject_restores ⟨2, Role.CHILD, 60⟩ rewardLimited 12 none none parent1 9
    ⟨2, Role.CHILD, 10⟩ ⟨7, 50, some 0, true⟩
    ⟨12, 2, 7, 50, RedStatus.PENDING, none, none, none, none⟩
    (by simp [requestRedemption, rewardLimited]) rfl

/-- C3: a child's redemption request succeeds only when the reward is active,
the reward's quantityAvailable is null or greater than 0 (otherwise it fails
with OutOfStock), and the child's balance is at least the reward's pointCost
(otherwise it fails with InsufficientPoints); on success, in one atomic
transaction the child's balance is debited by pointCost, quantityAvailable is
decremented by 1 when non-null, and a redemption record is created with
status PENDING and pointsSpent equal to the reward's pointCost at request
time. -/
theorem C3_redemption_request_guards :
    (∀ (child : User) (rw : Reward) (newId : Nat) (notes : Option String),
      child.role = Role.CHILD →
      ((∃ out, requestRedemption child rw newId notes = .ok out) ↔
        (rw.isActive = true ∧
         (rw.quantityAvailable = none ∨ ∃ q, rw.quantityAvailable = some q ∧ 0 < q) ∧
         (rw.pointCost : Int) ≤ child.pointsBalance))) ∧
    (∀ (child : User) (rw : Reward) (newId : Nat) (notes : Option String) (q : Int),
      child.role = Role.CHILD → rw.isActive = true →
      rw.quantityAvailable = some q → q ≤ 0 →
      requestRedemption child rw newId notes = .error .OUT_OF_STOCK ∧
      errKind .OUT_OF_STOCK = .OutOfStock) ∧
    (∀ (child : User) (rw : Reward) (newId : Nat) (notes : Option String),
      child.role = Role.CHILD → rw.isActive = true →
      (rw.quantityAvailable = none ∨ ∃ q, rw.quantityAvailable = some q ∧ 0 < q) →
      child.pointsBalance < (rw.pointCost : Int) →
      requestRedemption child rw newId notes = .error .INSUFFICIENT_POINTS ∧
      errKind .INSUFFICIENT_POINTS = .InsufficientPoints) ∧
    (∀ (child : User) (rw : Reward) (newId : Nat) (notes : Option String),
      child.role = Role.CHILD → rw.isActive = true →
      (rw.quantityAvailable = none ∨ ∃ q, rw.quantityAvailable = some q ∧ 0 < q) →
      (rw.pointCost : Int) ≤ child.pointsBalance →
      ∃ u2 rw2 rd,
        requestRedemption child rw newId notes = .ok (u2, rw2, rd) ∧
        u2.pointsBalance = child.pointsBalance - rw.pointCost ∧
        rd.status = RedStatus.PENDING ∧
        rd.pointsSpent = rw.pointCost ∧
        rd.childId = child.id ∧
        (∀ q, rw.quantityAvailable = some q → rw2.quantityAvailable = some (q - 1)) ∧
        (rw.quantityAvailable = none → rw2 = rw)) := by
  refine ⟨?_, ?_, ?_, ?_⟩
  · intro child rw newId notes hrole
    constructor
    · rintro ⟨out, hout⟩
      exact (requestRedemption_ok_conditions child rw newId notes out hout).2
    · rintro ⟨hact, hstock, hbal⟩
      exact ⟨_, requestRedemption_ok_eq child rw newId notes hrole hact hstock hbal⟩
  · intro child rw newId notes q hrole hact hq hle
    refine ⟨?_, rfl⟩
    simp [requestRedemption, hrole, hact, hq, hle]
  · intro child rw newId notes hrole hact hstock hlt
    have hns : (match rw.quantityAvailable with
                | some q => decide (q ≤ 0)
                | none => false) = false := by
      rcases hstock with h | ⟨q, hq, hpos⟩
      · rw [h]
      · rw [hq]
        simp
        omega
    refine ⟨?_, rfl⟩
    simp [requestRedemption, hrole, hact, hns, hlt]
  · intro child rw newId notes hrole hact hstock hbal
    refine ⟨_, _, _, requestRedemption_ok_eq child rw newId notes hrole hact hstock hbal,
      rfl, rfl, rfl, rfl, ?_, ?_⟩
    · intro q hq
      simp [hq]
    · intro hq
      simp [hq]

/-- Witness: C3 instantiated at `child2` (balance 5) requesting the
unlimited reward `rewardUnlimited` (cost 4; parts one and four), at an
out-of-stock reward (part two), and at `rewardLimited` (cost 50; part
three). -/
theorem C3_redemption_request_guards_witness :
    ((∃ out, requestRedemption child2 rewardUnlimited 13 none = .ok out) ↔
      (rewardUnlimited.isActive = true ∧
       (rewardUnlimited.quantityAvailable = none ∨
         ∃ q, rewardUnlimited.quantityAvailable = some q ∧ 0 < q) ∧
       (rewardUnlimited.pointCost : Int) ≤ child2.pointsBalance)) ∧
    (requestRedemption child2 ⟨9, 50, some 0, true⟩ 13 none = .error .OUT_OF_STOCK ∧
      errKind .OUT_OF_STOCK = .OutOfStock) ∧
    (requestRedemption child2 rewardLimited 13 none = .error .INSUFFICIENT_POINTS ∧
      errKind .INSUFFICIENT_POINTS = .InsufficientPoints) ∧
    (∃ u2 rw2 rd,
      requestRedemption child2 rewardUnlimited 13 none = .ok (u2, rw2, rd) ∧
      u2.pointsBalance = child2.pointsBalance - rewardUnlimited.pointCost ∧
      rd.status = RedStatus.PENDING ∧
      rd.pointsSpent = rewardUnlimited.pointCost ∧
      rd.childId = child2.id ∧
      (∀ q, rewardUnlimited.quantityAvailable = some q →
        rw2.quantityAvailable = some (q - 1)) ∧
      (rewardUnlimited.quantityAvailable = none → rw2 = rewardUnlimited)) :=
  ⟨C3_redemption_request_guards.1 child2 rewardUnlimited 13 none rfl,
   C3_redemption_request_guards.2.1 child2 ⟨9, 50, some 0, true⟩ 13 none 0 rfl rfl rfl
     (by norm_num),
   C3_redemption_request_guards.2.2.1 child2 rewardLimited 13 none rfl rfl
     (Or.inr ⟨1, rfl, by norm_num⟩) (by norm_num [child2, rewardLimited]),
   C3_redemption_request_guards.2.2.2 child2 rewardUnlimited 13 none rfl rfl (Or.inl rfl)
     (by norm_num [child2, rewardUnlimited])⟩

/-- C8: once a chore's status is VERIFIED, every mutating operation on it —
update, delete, verify again, reset, complete, add-photo, claim, each
attempted by an actor passing its role/identity gate — fails with a
ChoreFinalized- or InvalidStateTransition-kind error, and the handler returns
before producing any updated row, so no field of the chore changes. -/
theorem C8_verified_chore_immutable :
    ∀ (p child actor : User) (c : Chore) (inp : UpdateInput) (ci : CompleteInput)
      (vi : VerifyInput) (url : String) (now : Nat),
      c.status = ChoreStatus.VERIFIED →
      p.role = Role.PARENT →
      c.assignedToId = some child.id →
      (updateChore p c inp = .error .CHORE_FINALIZED ∧
        errKind .CHORE_FINALIZED = .ChoreFinalized) ∧
      (deleteChore p c = .error .CANNOT_DELETE_VERIFIED ∧
        errKind .CANNOT_DELETE_VERIFIED = .ChoreFinalized) ∧
      (verifyChore p c child vi now = .error .INVALID_STATUS ∧
        errKind .INVALID_STATUS = .InvalidStateTransition) ∧
      resetChore p c = .error .INVALID_STATUS ∧
      completeChore child c ci now = .error .INVALID_STATUS ∧
      addPhoto child c url = .error .INVALID_STATUS ∧
      (claimChore actor c now = .error .ALREADY_CLAIMED ∧
        errKind .ALREADY_CLAIMED = .InvalidStateTransition) := by
  intro p child actor c inp ci vi url now hst hrole hassigned
  refine ⟨⟨?_, rfl⟩, ⟨?_, rfl⟩, ⟨?_, rfl⟩, ?_, ?_, ?_, ⟨?_, rfl⟩⟩
  · simp [updateChore, hrole, hst]
  · simp [deleteChore, hrole, hst]
  · exact verifyChore_not_completed p c child vi now hrole (by simp [hst])
  · simp [resetChore, hrole, hst]
  · simp [completeChore, hassigned, hst]
  · simp [addPhoto, hassigned, hst]
  · simp [claimChore, hassigned]

/-- Witness: C8 instantiated at the VERIFIED chore `choreVerified` with
parent `parent1` and assignee `child2`. -/
theorem C8_verified_chore_immutable_witness :
    (updateChore parent1 choreVerified ⟨some "sweep", none, none, none⟩ =
        .error .CHORE_FINALIZED ∧
      errKind .CHORE_FINALIZED = .ChoreFinalized) ∧
    (deleteChore parent1 choreVerified = .error .CANNOT_DELETE_VERIFIED ∧
      errKind .CANNOT_DELETE_VERIFIED = .ChoreFinalized) ∧
    (verifyChore parent1 choreVerified child2 ⟨true, none, none⟩ 9 =
        .error .INVALID_STATUS ∧
      errKind .INVALID_STATUS = .InvalidStateTransition) ∧
    resetChore parent1 choreVerified = .error .INVALID_STATUS ∧
    completeChore child2 choreVerified ⟨none, none⟩ 9 = .error .INVALID_STATUS ∧
    addPhoto child2 choreVerified "u" = .error .INVALID_STATUS ∧
    (claimChore child2 choreVerified 9 = .error .ALREADY_CLAIMED ∧
      errKind .ALREADY_CLAIMED = .InvalidStateTransition) :=
  C8_verified_chore_immutable parent1 child2 child2 choreVerified
    ⟨some "sweep", none, none, none⟩ ⟨none, none⟩ ⟨true, none, none⟩ "u" 9 rfl rfl rfl

/-- C5: for every user and every sequence of core operations (verify-approve,
verify-reject with penalty, redemption request, redemption review/reject,
plus the ledger-neutral fulfilment), starting from a non-negative balance,
after every prefix of the sequence the user's pointsBalance equals the
initial balance plus all applied credits minus all applied debits (the sum of
the signed deltas of the operations that succeeded), and is never negative at
any point in the sequence. -/
theorem C5_balance_conservation :
    ∀ (s : SysState) (ops : List Op) (n : Nat),
      0 ≤ s.child.pointsBalance →
      (runOps s (ops.take n)).1.child.pointsBalance =
        s.child.pointsBalance + ((runOps s (ops.take n)).2).sum ∧
      0 ≤ (runOps s (ops.take n)).1.child.pointsBalance := by
  intro s ops n h0
  exact runOps_balance (ops.take n) s h0

/-- Witness: C5 instantiated at a child with 60 points running a request of
the 50-point limited reward, the parent's rejection of that redemption, and
a verify-approval of the completed 20-point chore. -/
theorem C5_balance_conservation_witness :
    (runOps ⟨⟨2, Role.CHILD, 60⟩, [choreCompleted], [rewardLimited], []⟩
        (([Op.redeemRequest 7 12 none,
           Op.redeemReview parent1 12 ReviewDecision.REJECTED none 6,
           Op.verifyApprove parent1 1 none 9]).take 3)).1.child.pointsBalance =
      (⟨⟨2, Role.CHILD, 60⟩, [choreCompleted], [rewardLimited], []⟩ :
        SysState).child.pointsBalance +
        ((runOps ⟨⟨2, Role.CHILD, 60⟩, [choreCompleted], [rewardLimited], []⟩
          (([Op.redeemRequest 7 12 none,
             Op.redeemReview parent1 12 ReviewDecision.REJECTED none 6,
             Op.verifyApprove parent1 1 none 9]).take 3)).2).sum ∧
    0 ≤ (runOps ⟨⟨2, Role.CHILD, 60⟩, [choreCompleted], [rewardLimited], []⟩
        (([Op.redeemRequest 7 12 none,
           Op.redeemReview parent1 12 ReviewDecision.REJECTED none 6,
           Op.verifyApprove parent1 1 none 9]).take 3)).1.child.pointsBalance :=
  C5_balance_conservation ⟨⟨2, Role.CHILD, 60⟩, [choreCompleted], [rewardLimited], []⟩
    [Op.redeemRequest 7 12 none,
     Op.redeemReview parent1 12 ReviewDecision.REJECTED none 6,
     Op.verifyApprove parent1 1 none 9] 3 (by norm_num)

end ChoreChomper
